import Mathlib

set_option maxHeartbeats 1000000

/-!
Verification development for the Arduino IoT Cloud Python client
(`arduino_iot_cloud/ucloud.py`).  The property-synchronization engine is
embedded shallowly: the current module's `ArduinoCloudObject` /
`ArduinoCloudClient` state and decision logic become pure Lean functions
over explicit state records.  Python scalar values are modelled by `PyVal`
(floats as rationals: only type tags and the exact int-to-float coercion
matter to the engine), machine time stamps by `Nat` milliseconds/seconds,
and exceptions by explicit outcome values.  External collaborators
(MQTT transport, SenML binary codec, user callbacks) are modelled at their
interface: the transport delivers decoded `(name, value)` lists and
records an action trace; user callbacks are opaque, only their
scheduler-visible effects (flags, run events) are represented.
-/

/-- Python scalar values that occur as cloud property values.  Python
floats are modelled as rationals, since the engine only inspects type tags
and performs the exact `float(int)` coercion. -/
inductive PyVal where
  | vNone
  | vBool (b : Bool)
  | vInt (n : ℤ)
  | vFloat (q : ℚ)
  | vStr (s : String)
  | vBytes (bs : List ℕ)
deriving DecidableEq, Repr

/-- Python type tags, as produced by `type(value)` for the scalar values
above. -/
inductive PyType where
  | tNone
  | tBool
  | tInt
  | tFloat
  | tStr
  | tBytes
deriving DecidableEq, Repr

/-- The tag `type(v)` of a scalar value. -/
def PyVal.typeOf : PyVal → PyType
  | .vNone => .tNone
  | .vBool _ => .tBool
  | .vInt _ => .tInt
  | .vFloat _ => .tFloat
  | .vStr _ => .tStr
  | .vBytes _ => .tBytes

/-- Python `isinstance(v, t)` on scalar values.  Crucially, `bool` is a
subclass of `int` in Python, so `isinstance(True, int)` holds while
`isinstance(1, bool)` does not. -/
def pyIsinstance (v : PyVal) : PyType → Bool
  | .tNone => v == .vNone
  | .tBool => match v with
    | .vBool _ => true
    | _ => false
  | .tInt => match v with
    | .vBool _ => true
    | .vInt _ => true
    | _ => false
  | .tFloat => match v with
    | .vFloat _ => true
    | _ => false
  | .tStr => match v with
    | .vStr _ => true
    | _ => false
  | .tBytes => match v with
    | .vBytes _ => true
    | _ => false

/-- Python `float(v)` on an int-like value (`int` or `bool`); other values
are returned unchanged (the setter only applies it to int-like values). -/
def coerceToFloat : PyVal → PyVal
  | .vBool b => .vFloat (if b then 1 else 0)
  | .vInt n => .vFloat (n : ℚ)
  | v => v

/-- Python truthiness (`not v` in `poll_discovery` tests falsiness). -/
def pyFalsy : PyVal → Bool
  | .vNone => true
  | .vBool b => !b
  | .vInt n => n == 0
  | .vFloat q => q == 0
  | .vStr s => s.isEmpty
  | .vBytes bs => bs.isEmpty

/-- Python `int(q)` (truncation toward zero), used by `ts_expired` for
`int(interval_s * 1000)`: the T-division of the reduced numerator by the
denominator truncates toward zero for either sign. -/
def pyIntTrunc (q : ℚ) : ℤ :=
  Int.tdiv q.num (q.den : ℤ)

/-- Outcome of an assignment through the `value` property setter: either
normal return or a raised `TypeError` ("TypeMismatch").  The source raises
before performing any mutation, so the raising embedding returns the
unchanged state alongside this flag. -/
inductive SetOutcome where
  | ok
  | typeMismatch
deriving DecidableEq, Repr

/-- The `ArduinoCloudObject.value` setter of the current module
(`src/src/arduino_iot_cloud/ucloud.py`, lines 98-116) acting on the leaf
state `(stored value, _updated flag, timestamp)`.  `now` is `timestamp()`.
For a non-None assignment to an initialized leaf it first applies the
cloud float/int workaround (`float(value)` when the current value is a
float and the new one is int-like), then checks
`isinstance(self.value, type(value))`, raising on failure; any accepted
non-None assignment sets `_updated` and refreshes the timestamp. -/
def setValueCore (cur : PyVal) (upd : Bool) (ts : ℕ) (v : PyVal) (now : ℕ) :
    (PyVal × Bool × ℕ) × SetOutcome :=
  match v with
  | .vNone => ((.vNone, upd, ts), .ok)
  | _ =>
    if cur == .vNone then ((v, true, now), .ok)
    else
      let v' := if pyIsinstance cur .tFloat && pyIsinstance v .tInt then coerceToFloat v else v
      if pyIsinstance cur (PyVal.typeOf v') then ((v', true, now), .ok)
      else ((cur, upd, ts), .typeMismatch)

/-- The `AIOTObject.value` setter of the earlier evolution
(`src/arduino_iot_cloud/ucloud.py`, lines 99-113).  It has no float/int
coercion, and it sets `_updated` only when the leaf was already
initialized; a first (initializing) assignment refreshes the timestamp but
leaves `_updated` alone. -/
def setValueCoreOld (cur : PyVal) (upd : Bool) (ts : ℕ) (v : PyVal) (now : ℕ) :
    (PyVal × Bool × ℕ) × SetOutcome :=
  match v with
  | .vNone => ((.vNone, upd, ts), .ok)
  | _ =>
    if cur == .vNone then ((v, upd, now), .ok)
    else if pyIsinstance cur (PyVal.typeOf v) then ((v, true, now), .ok)
    else ((cur, upd, ts), .typeMismatch)

/-- A sub-record of a composite `ArduinoCloudObject` (an entry of the
`value` dict created from `keys`).  Children are always leaves in the
source. -/
structure Child where
  name : String
  value : PyVal
  updated : Bool
  timestamp : ℕ
deriving DecidableEq, Repr

/-- The value of an `ArduinoCloudObject`: a scalar leaf or a composite
dict of named sub-records. -/
inductive RecVal where
  | leaf (v : PyVal)
  | comp (children : List Child)
deriving DecidableEq, Repr

/-- State of one `ArduinoCloudObject`.  Callbacks are external user code;
only their presence (`hasOnRead` for `on_read`, etc.) is modelled, which
is all the engine's decisions depend on. -/
structure ArduinoCloudObject where
  name : String
  rv : RecVal
  updated : Bool
  onWriteScheduled : Bool
  timestamp : ℕ
  hasOnRead : Bool
  hasOnWrite : Bool
  hasOnRun : Bool
  interval : ℚ
  lastPoll : ℕ
  backoff : Option ℚ
deriving DecidableEq, Repr

/-- Constructor defaults of `ArduinoCloudObject.__init__`: `_updated` and
`on_write_scheduled` start false, `timestamp` is `timestamp()` and
`last_poll` is `timestamp_ms()` at creation. -/
def mkObject (name : String) (rv : RecVal) (hasOnRead hasOnWrite hasOnRun : Bool)
    (interval : ℚ) (backoff : Option ℚ) (nowS nowMs : ℕ) : ArduinoCloudObject :=
  { name := name, rv := rv, updated := false, onWriteScheduled := false,
    timestamp := nowS, lastPoll := nowMs,
    hasOnRead := hasOnRead, hasOnWrite := hasOnWrite, hasOnRun := hasOnRun,
    interval := interval, backoff := backoff }

/-- The `updated` property getter: a composite is updated ("dirty") when
any child is; a leaf reports its own `_updated`. -/
def ArduinoCloudObject.updatedGet (r : ArduinoCloudObject) : Bool :=
  match r.rv with
  | .comp cs => cs.any (fun c => c.updated)
  | .leaf _ => r.updated

/-- The `updated` property setter: for a composite it writes the flag to
every child; it always writes the record's own `_updated` as well. -/
def ArduinoCloudObject.updatedSetAll (r : ArduinoCloudObject) (b : Bool) : ArduinoCloudObject :=
  { r with
    updated := b,
    rv := match r.rv with
      | .comp cs => .comp (cs.map (fun c => { c with updated := b }))
      | l => l }

/-- The `initialized` property: leaf value non-None, or all children
initialized. -/
def Child.initialized (c : Child) : Bool := c.value != .vNone

/-- The `initialized` property of a record. -/
def ArduinoCloudObject.initialized (r : ArduinoCloudObject) : Bool :=
  match r.rv with
  | .comp cs => cs.all Child.initialized
  | .leaf v => v != .vNone

/-- The `runnable` flag: any of `on_run`, `on_read`, `on_write` set. -/
def ArduinoCloudObject.runnable (r : ArduinoCloudObject) : Bool :=
  r.hasOnRun || r.hasOnRead || r.hasOnWrite

/-- `record.value = v` on a record (the current module's setter).  On a
composite record an assignment of a scalar always fails the isinstance
check (a dict is not an instance of a scalar type) and raises, mutating
nothing.  The raise happens before any mutation, so the pre-state is
returned with the outcome. -/
def ArduinoCloudObject.setValue (r : ArduinoCloudObject) (v : PyVal) (now : ℕ) :
    ArduinoCloudObject × SetOutcome :=
  match r.rv with
  | .leaf cur =>
    match setValueCore cur r.updated r.timestamp v now with
    | ((v', upd', ts'), out) =>
      ({ r with rv := .leaf v', updated := upd', timestamp := ts' }, out)
  | .comp _ => (r, .typeMismatch)

/-- `Child.value = v` (same setter logic, acting on a sub-record). -/
def Child.setValue (c : Child) (v : PyVal) (now : ℕ) : Child × SetOutcome :=
  match setValueCore c.value c.updated c.timestamp v now with
  | ((v', upd', ts'), out) =>
    ({ c with value := v', updated := upd', timestamp := ts' }, out)

/-- `senml_callback` (lines 153-158): invoked by the codec after a record
is updated from the cloud.  It clears `updated` through the property
setter (so on a composite every child is cleared too) and schedules the
`on_write` callback. -/
def ArduinoCloudObject.senmlCallback (r : ArduinoCloudObject) : ArduinoCloudObject :=
  { r.updatedSetAll false with onWriteScheduled := true }

/-- A cloud-originated update of a leaf record during inbound decode: the
codec assigns `record.value` and, if the assignment did not raise, invokes
the record's `senml_callback`. -/
def ArduinoCloudObject.markFromNetwork (r : ArduinoCloudObject) (v : PyVal) (now : ℕ) :
    ArduinoCloudObject × SetOutcome :=
  match r.setValue v now with
  | (r', .ok) => (r'.senmlCallback, .ok)
  | (r', .typeMismatch) => (r', .typeMismatch)

/-- Does a composite record own a child with the given (fully qualified)
name? -/
def ArduinoCloudObject.hasChildNamed (r : ArduinoCloudObject) (n : String) : Bool :=
  match r.rv with
  | .comp cs => cs.any (fun c => c.name == n)
  | .leaf _ => false

/-- A cloud-originated update of one child of a composite record.  The
child's `value` setter runs first; children are created with the parent's
bound `senml_callback` as their codec callback, so on success the parent's
callback fires (clearing `updated` on the parent and every child and
scheduling the parent's `on_write`).  If the child assignment raises, the
callback is not invoked and the exception propagates. -/
def ArduinoCloudObject.childFromNetwork (r : ArduinoCloudObject) (n : String) (v : PyVal)
    (now : ℕ) : ArduinoCloudObject × SetOutcome :=
  match r.rv with
  | .leaf _ => (r, .ok)
  | .comp cs =>
    let results := cs.map (fun c => if c.name == n then c.setValue v now else (c, SetOutcome.ok))
    let cs' := results.map Prod.fst
    let raised := results.any (fun p => p.2 == SetOutcome.typeMismatch)
    let r' := { r with rv := RecVal.comp cs' }
    if raised then (r', .typeMismatch)
    else if r.hasChildNamed n then (r'.senmlCallback, .ok)
    else (r', .ok)

/-- One record serialized into a SenML pack: name, value and timestamp. -/
structure PackEntry where
  name : String
  value : PyVal
  timestamp : ℕ
deriving DecidableEq, Repr

/-- The pack entry of a child record. -/
def Child.toEntry (c : Child) : PackEntry :=
  { name := c.name, value := c.value, timestamp := c.timestamp }

/-- `add_to_pack` (lines 138-151): with `push` semantics a composite
contributes its children only when fully initialized and a leaf only when
non-None; without `push` (shadow/update direction) children and leaves are
always added.  Afterwards `updated` is cleared through the property setter
(self and all children). -/
def ArduinoCloudObject.addToPack (r : ArduinoCloudObject) (pack : List PackEntry)
    (push : Bool) : ArduinoCloudObject × List PackEntry :=
  let pack' :=
    match r.rv with
    | .comp cs =>
      if !push || r.initialized then pack ++ cs.map Child.toEntry else pack
    | .leaf v =>
      if !push || v != .vNone then pack ++ [{ name := r.name, value := v, timestamp := r.timestamp }]
      else pack
  (r.updatedSetAll false, pack')

/-- Character-list version of `a.startswith(b)` used to define substring
containment. -/
def charsStartWith : List Char → List Char → Bool
  | [], _ => true
  | _ :: _, [] => false
  | a :: as, b :: bs => a == b && charsStartWith as bs

/-- Does the character list contain the first list as a contiguous
sublist? -/
def charsContain (pat : List Char) : List Char → Bool
  | [] => charsStartWith pat []
  | b :: bs => charsStartWith pat (b :: bs) || charsContain pat bs

/-- Python `pat in hay` on strings (contiguous substring test). -/
def strContainsSub (pat hay : String) : Bool :=
  charsContain pat.data hay.data

/-- The shadow-topic test of `mqtt_callback`: `b"shadow" in topic`. -/
def topicIsShadow (topic : String) : Bool :=
  strContainsSub "shadow" topic

/-- The staging condition of `mqtt_callback` (line 311): a record is added
to the decode pack when it is not yet initialized, or it is writable
(`on_write` set) and the message did not arrive on a shadow topic. -/
def stagingCond (r : ArduinoCloudObject) (topic : String) : Bool :=
  !r.initialized || (r.hasOnWrite && !topicIsShadow topic)

/-- Staging one record for decode: `record.add_to_pack(self.senmlpack)`
clears the record's `updated` flag as a side effect.  The Bool tags
whether the record (or, for a composite, its children) is in the decode
pack. -/
def stageRecord (topic : String) (r : ArduinoCloudObject) : ArduinoCloudObject × Bool :=
  if stagingCond r topic then ((r.addToPack [] false).1, true) else (r, false)

/-- Application of one decoded `(name, value)` codec callback to one
(record, staged) pair: a staged record matching by its own name receives
`markFromNetwork`; a staged composite owning a child of that name receives
the child update; anything else is untouched (unmatched names reach only
the logging `senml_generic_callback`).  The second Bool reports a raised
`TypeError`. -/
def applyTagged (now : ℕ) (n : String) (v : PyVal) (p : ArduinoCloudObject × Bool) :
    (ArduinoCloudObject × Bool) × Bool :=
  if p.2 && p.1.name == n then
    match p.1.markFromNetwork v now with
    | (r', .ok) => ((r', p.2), false)
    | (r', .typeMismatch) => ((r', p.2), true)
  else if p.2 && p.1.hasChildNamed n then
    match p.1.childFromNetwork n v now with
    | (r', .ok) => ((r', p.2), false)
    | (r', .typeMismatch) => ((r', p.2), true)
  else (p, false)

/-- One decoded message entry applied across the staged records.  Record
names are unique in the client's registry (a dict), so at most one element
matches. -/
def applyEntryTagged (now : ℕ) (n : String) (v : PyVal)
    (tagged : List (ArduinoCloudObject × Bool)) :
    List (ArduinoCloudObject × Bool) × Bool :=
  let results := tagged.map (applyTagged now n v)
  (results.map Prod.fst, results.any Prod.snd)

/-- The codec decode loop (`from_cbor`): message entries are applied in
order; a raised exception aborts the remaining entries (it propagates out
of `mqtt_callback`), keeping the updates already applied. -/
def decodeEntries (now : ℕ) : List (String × PyVal) → List (ArduinoCloudObject × Bool) →
    List (ArduinoCloudObject × Bool) × Bool
  | [], tagged => (tagged, false)
  | e :: es, tagged =>
    if (applyEntryTagged now e.1 e.2 tagged).2 then applyEntryTagged now e.1 e.2 tagged
    else decodeEntries now es (applyEntryTagged now e.1 e.2 tagged).1

/-- `mqtt_callback` (lines 303-314): stage every registered record that
satisfies the staging condition, then decode the message payload into the
staged set.  Returns the updated records and whether a decode exception
was raised. -/
def mqttCallback (records : List ArduinoCloudObject) (topic : String)
    (msg : List (String × PyVal)) (now : ℕ) : List ArduinoCloudObject × Bool :=
  let res := decodeEntries now msg (records.map (stageRecord topic))
  (res.1.map Prod.fst, res.2)

/-- The outbound batch built by `poll_mqtt` (lines 379-382): every record
whose `updated` property is true is added to the pack with push
semantics. -/
def pushPack (records : List ArduinoCloudObject) : List PackEntry :=
  records.foldl (fun pack r => if r.updatedGet then (r.addToPack pack true).2 else pack) []

/-- The record-state side of the same loop: `add_to_pack` clears the
`updated` flag of every record that was considered for the push batch. -/
def buildPushRecords (records : List ArduinoCloudObject) : List ArduinoCloudObject :=
  records.map (fun r => if r.updatedGet then (r.addToPack [] true).1 else r)

/-- `ts_expired` (lines 316-317): a timestamp has expired when it is zero
or strictly more than `int(interval_s * 1000)` milliseconds old. -/
def tsExpired (ts lastTsMs : ℕ) (intervalS : ℚ) : Bool :=
  lastTsMs == 0 || decide ((ts : ℤ) - (lastTsMs : ℤ) > pyIntTrunc (intervalS * 1000))

/-- Observable events emitted by the client: transport calls and scheduler
runs. -/
inductive CloudAction where
  | connectAttempt (ok : Bool)
  | subscribe (topic : String)
  | publish (topic : String) (entries : List PackEntry)
  | ping
  | ranRecord (name : String)
deriving DecidableEq, Repr

/-- Client state (`ArduinoCloudClient`): the registry, the resolved thing
identity, connection and keepalive state, plus the emitted action trace. -/
structure ClientState where
  deviceId : String
  records : List ArduinoCloudObject
  thingId : Option PyVal
  connected : Bool
  keepalive : ℕ
  lastPing : ℕ
  actions : List CloudAction
deriving DecidableEq, Repr

/-- `create_topic`: thing-scoped topic string. -/
def createTopic (thingId : Option PyVal) (a b : String) : String :=
  let idStr := match thingId with
    | some (.vStr s) => s
    | some (.vInt n) => toString n
    | some (.vBool bv) => if bv then "True" else "False"
    | some _ => "id"
    | none => "None"
  "/a/t/" ++ idStr ++ "/" ++ a ++ "/" ++ b

/-- The device-scoped inbound topic `/a/d/<device_id>/e/i`. -/
def deviceTopicOf (deviceId : String) : String :=
  "/a/d/" ++ deviceId ++ "/e/i"

/-- The device command topic `/a/d/<device_id>/c/up`. -/
def commandTopicOf (deviceId : String) : String :=
  "/a/d/" ++ deviceId ++ "/c/up"

/-- The scheduler-visible part of `run_sync` for a user record: a
scheduled `on_write` is delivered once and its flag cleared.  The bodies
of `on_run`/`on_read`/`on_write` are external user callbacks; their value
effects are outside this embedding, and the run event itself is recorded
in the client's action trace. -/
def ArduinoCloudObject.runSyncModel (r : ArduinoCloudObject) : ArduinoCloudObject :=
  if r.hasOnWrite && r.onWriteScheduled then { r with onWriteScheduled := false } else r

/-- Decision for one record in a `poll_records` pass at time `ts`. -/
def pollRecordStep (ts : ℕ) (r : ArduinoCloudObject) : ArduinoCloudObject × Bool :=
  if r.runnable && tsExpired ts r.lastPoll r.interval then
    ({ r.runSyncModel with lastPoll := ts }, true)
  else (r, false)

/-- `poll_records` (lines 319-329): one pass over the registry at a single
timestamp; every runnable record whose poll timer expired is run and its
`last_poll` set to the pass timestamp.  (Callback exceptions, which would
evict the failing record, are outside this embedding: callbacks are
modelled as non-raising.) -/
def pollRecords (s : ClientState) (ts : ℕ) : ClientState :=
  { s with
    records := s.records.map (fun r => (pollRecordStep ts r).1),
    actions := s.actions ++ s.records.filterMap (fun r =>
      if (pollRecordStep ts r).2 then some (CloudAction.ranRecord r.name) else none) }

/-- Exceptions of the engine that cross function boundaries. -/
inductive Exn where
  | emptyIdentity
  | typeMismatchExn
deriving DecidableEq, Repr

/-- `poll_connect` in sync mode (lines 331-350): attempt the transport
connect; on failure log and return; on success subscribe to the
device-level topic (pre-discovery) or the thing-level topic and set
`connected`. -/
def pollConnect (s : ClientState) (connectOk : Bool) : ClientState :=
  if !connectOk then { s with actions := s.actions ++ [CloudAction.connectAttempt false] }
  else
    let sub := match s.thingId with
      | none => CloudAction.subscribe (deviceTopicOf s.deviceId)
      | some _ => CloudAction.subscribe (createTopic s.thingId "e" "i")
    { s with connected := true, actions := s.actions ++ [CloudAction.connectAttempt true, sub] }

/-- Find a registered record by name. -/
def findRec (records : List ArduinoCloudObject) (n : String) : Option ArduinoCloudObject :=
  records.find? (fun r => r.name == n)

/-- The leaf value of a registered record, if present. -/
def recValue (records : List ArduinoCloudObject) (n : String) : Option PyVal :=
  match findRec records n with
  | some r =>
    match r.rv with
    | .leaf v => some v
    | .comp _ => none
  | none => none

/-- Remove a registered record (`records.pop(name)`). -/
def popRecord (records : List ArduinoCloudObject) (n : String) : List ArduinoCloudObject :=
  records.filter (fun r => r.name != n)

/-- `poll_discovery` (lines 352-374) in sync mode (`async_mode = False`,
so no `DoneException`).  `check_msg` delivers at most one buffered inbound
message through `mqtt_callback`; a decode exception propagates.  When the
`thing_id` record has been seeded, its value is adopted (the record is
popped first), and an empty (falsy) identity raises the fatal
empty-identity exception — after the assignment, before any topic setup.
Otherwise the thing topics are derived, a pending `r:m` last-values
request is serialized and published on the shadow topic, and the library
version is pushed. -/
def pollDiscovery (s : ClientState) (inbound : Option (String × List (String × PyVal)))
    (now : ℕ) : ClientState × Option Exn :=
  let step :=
    match inbound with
    | none => (s, false)
    | some tm =>
      let res := mqttCallback s.records tm.1 tm.2 now
      ({ s with records := res.1 }, res.2)
  match step with
  | (s1, true) => (s1, some .typeMismatchExn)
  | (s1, false) =>
    match recValue s1.records "thing_id" with
    | none => (s1, none)
    | some .vNone => (s1, none)
    | some v =>
      let s2 := { s1 with thingId := some v, records := popRecord s1.records "thing_id" }
      if pyFalsy v then (s2, some .emptyIdentity)
      else
        let s3 := { s2 with actions := s2.actions ++ [CloudAction.subscribe (createTopic s2.thingId "e" "i")] }
        let s4 :=
          match findRec s3.records "r:m" with
          | none => s3
          | some rm =>
            { s3 with
              records := popRecord s3.records "r:m",
              actions := s3.actions ++
                [CloudAction.subscribe (createTopic s3.thingId "shadow" "i"),
                 CloudAction.publish (createTopic s3.thingId "shadow" "o") (rm.addToPack [] false).2] }
        let s5 := { s4 with actions := s4.actions ++ [CloudAction.publish (commandTopicOf s4.deviceId) []] }
        (s5, none)

/-- The steady-state gate of `poll_mqtt` (line 378): records are pushed or
keepalive pings sent only once `thing_id is not None`; an empty string is
not `None`, so it satisfies the gate. -/
def pollMqttGate (thingId : Option PyVal) : Bool :=
  thingId.isSome

/-- `poll_mqtt` (lines 376-393): drain the transport, then — behind the
thing-id gate — build the push batch from every dirty record; publish it
to the thing outbound topic (resetting the keepalive timer), or ping when
the keepalive interval has passed with nothing to push.  `nowS` is
`timestamp()` in seconds. -/
def pollMqtt (s : ClientState) (inbound : Option (String × List (String × PyVal)))
    (nowS : ℕ) (now : ℕ) : ClientState × Option Exn :=
  let step :=
    match inbound with
    | none => (s, false)
    | some tm =>
      let res := mqttCallback s.records tm.1 tm.2 now
      ({ s with records := res.1 }, res.2)
  match step with
  | (s1, true) => (s1, some .typeMismatchExn)
  | (s1, false) =>
    if pollMqttGate s1.thingId then
      let pack := pushPack s1.records
      let recs := buildPushRecords s1.records
      if pack.isEmpty then
        if s1.keepalive != 0 && decide (nowS - s1.lastPing > s1.keepalive) then
          ({ s1 with records := recs, lastPing := nowS, actions := s1.actions ++ [CloudAction.ping] }, none)
        else ({ s1 with records := recs }, none)
      else
        ({ s1 with
            records := recs
            lastPing := nowS
            actions := s1.actions ++ [CloudAction.publish (createTopic s1.thingId "e" "o") pack] }, none)
    else (s1, none)

/-- Steady-state sync traffic: a publish on a thing outbound (`…/e/o`)
topic, or a transport keepalive ping.  Only `poll_mqtt` emits these. -/
def isSteadySyncAction : CloudAction → Bool
  | .publish t _ => strContainsSub "/e/o" t
  | .ping => true
  | _ => false

/-- State of the sync-mode `start()` loop (lines 436-458): the client plus
the loop-local reconnect interval/backoff and the two attempt
timestamps. -/
structure SyncLoopState where
  cs : ClientState
  interval : ℚ
  backoff : ℚ
  lastConnMs : ℕ
  lastDiscMs : ℕ
deriving DecidableEq, Repr

/-- The environment of one `start()` loop iteration: the pass timestamp
(`timestamp_ms()`), whether a transport connect attempted now would
succeed, and at most one buffered inbound message `check_msg` would
deliver. -/
structure StepEnv where
  ts : ℕ
  connectOk : Bool
  inbound : Option (String × List (String × PyVal))
deriving DecidableEq, Repr

/-- Result of one `start()` loop iteration. -/
inductive StepOutcome where
  | next
  | broke
  | raised (e : Exn)
deriving DecidableEq, Repr

/-- The connect block of one sync-mode `start()` loop iteration (lines
446-450): when disconnected and the reconnect timer expired, attempt a
connect and grow the retry interval by the backoff — capped at 5.0 — only
when this was not the first attempt (`last_conn_ms != 0`). -/
def connStep (l : SyncLoopState) (env : StepEnv) : SyncLoopState :=
  if !l.cs.connected && tsExpired env.ts l.lastConnMs l.interval then
    { l with
      cs := pollConnect l.cs env.connectOk
      interval := if l.lastConnMs != 0 then min (l.interval * l.backoff) 5 else l.interval
      lastConnMs := env.ts }
  else l

/-- The discovery block of the same iteration: when connected with no
thing id and the 0.250 s discovery timer expired, run `poll_discovery`; a
raised exception leaves `last_disc_ms` unchanged and aborts the loop. -/
def discStep (l : SyncLoopState) (env : StepEnv) : SyncLoopState × StepOutcome :=
  if l.cs.connected && l.cs.thingId.isNone && tsExpired env.ts l.lastDiscMs (1/4 : ℚ) then
    match pollDiscovery l.cs env.inbound env.ts with
    | (cs', none) => ({ l with cs := cs', lastDiscMs := env.ts }, StepOutcome.next)
    | (cs', some e) => ({ l with cs := cs' }, StepOutcome.raised e)
  else (l, StepOutcome.next)

/-- One iteration of the sync-mode `start()` loop (lines 444-458): the
connect block, then the discovery block (a raised exception propagates,
aborting the loop), then leave the loop once connected with a thing id,
else one `poll_records` pass. -/
def startStep (l : SyncLoopState) (env : StepEnv) : SyncLoopState × StepOutcome :=
  match discStep (connStep l env) env with
  | (l2, StepOutcome.raised e) => (l2, StepOutcome.raised e)
  | (l2, _) =>
    if l2.cs.connected && l2.cs.thingId.isSome then (l2, StepOutcome.broke)
    else ({ l2 with cs := pollRecords l2.cs env.ts }, StepOutcome.next)

/-- The sync-mode `start()` `while True` loop, driven by a finite
environment trace (fuel).  `next` as the final outcome means the loop was
still running when the trace ran out; `broke` means it reached the steady
state; a raised exception propagates out of `start()` uncaught. -/
def startLoop : ℕ → List StepEnv → SyncLoopState → SyncLoopState × StepOutcome
  | 0, _, l => (l, StepOutcome.next)
  | _ + 1, [], l => (l, StepOutcome.next)
  | fuel + 1, env :: rest, l =>
    match startStep l env with
    | (l', StepOutcome.next) => startLoop fuel rest l'
    | (l', o) => (l', o)

/-- `update()` in sync mode (lines 460-477): when disconnected, run
`start()` first — an exception from it (such as the empty-identity
failure) is re-raised to the caller.  Otherwise one `poll_records` pass
runs, then `poll_mqtt`; a transport exception from `poll_mqtt` is caught
and only clears `connected`. -/
def updateSync (l : SyncLoopState) (startEnvs : List StepEnv) (fuel : ℕ) (env : StepEnv) :
    SyncLoopState × Option Exn :=
  let started := if !l.cs.connected then startLoop fuel startEnvs l else (l, StepOutcome.broke)
  match started with
  | (l', StepOutcome.raised e) => (l', some e)
  | (l', _) =>
    let cs1 := pollRecords l'.cs env.ts
    match pollMqtt cs1 env.inbound (env.ts / 1000) env.ts with
    | (cs2, some _) => ({ l' with cs := { cs2 with connected := false } }, none)
    | (cs2, none) => ({ l' with cs := cs2 }, none)

/-- Exceptions a task of the async-mode supervision loop can end with. -/
inductive TaskExn where
  | doneE
  | emptyIdentityE
  | keyboardInterrupt
  | otherE
deriving DecidableEq, Repr

/-- Outcome of one pass of the async supervision loop. -/
inductive SupOutcome where
  | propagated (e : TaskExn)
  | continued (tasks : List String) (reconnectRegistered : Bool)
deriving DecidableEq, Repr

/-- The exception-handling skeleton of the async-mode
`ArduinoCloudClient.run` supervision loop (lines 404-434): only
`KeyboardInterrupt` is re-raised; any other exception from `gather` is
caught, the finished task (and its record) is evicted, and the loop
continues with the remaining tasks — re-registering the connection task
only when the evicted task was `mqtt_task`. -/
def runSupervisorStep (tasks : List String) (doneTask : String) (e : TaskExn) : SupOutcome :=
  if e == TaskExn.keyboardInterrupt then SupOutcome.propagated e
  else SupOutcome.continued (tasks.filter (fun n => n != doneTask)) (doneTask == "mqtt_task")

/-- The interval mutation of the async task runner
(`ArduinoCloudObject.run`, lines 160-165): after every pass, a record with
a backoff multiplies its interval by it, capped at 5.0. -/
def objRunIntervalStep (interval : ℚ) (backoff : Option ℚ) : ℚ :=
  match backoff with
  | none => interval
  | some b => min (interval * b) 5

/-- Acceptance relation of the current setter on an initialized leaf, by
type tags: same tag, int-like into float (Python's `isinstance(v, int)`
also admits bools, which the coercion then converts), or a plain int into
a bool-typed leaf (`isinstance(True, int)` holds). -/
def acceptTag (cur new : PyType) : Bool :=
  cur == new || (cur == PyType.tFloat && (new == PyType.tInt || new == PyType.tBool)) ||
    (cur == PyType.tBool && new == PyType.tInt)

/-- Sample uninitialized leaf record. -/
def c3rec : ArduinoCloudObject :=
  mkObject "led" (RecVal.leaf PyVal.vNone) false false false 1 none 0 0

/-- Sample float-typed leaf record. -/
def c4rec : ArduinoCloudObject :=
  mkObject "temp" (RecVal.leaf (PyVal.vFloat 2)) false false false 1 none 0 0

/-- C3 counterexample: assigning a non-None value (`5`) to an
uninitialized leaf stores the value and adopts its type, but it DOES set
the dirty flag (`_updated = True` runs for every non-None assignment in
the current module), contradicting "without setting the dirty flag". -/
theorem c3_counterexample :
    (c3rec.setValue (PyVal.vInt 5) 7).2 = SetOutcome.ok ∧
    (c3rec.setValue (PyVal.vInt 5) 7).1.rv = RecVal.leaf (PyVal.vInt 5) ∧
    (c3rec.setValue (PyVal.vInt 5) 7).1.updated = true ∧
    ¬((c3rec.setValue (PyVal.vInt 5) 7).1.updated = false) := by
  decide

/-- C3 (amended): assigning a non-None value to an uninitialized leaf
adopts the value (hence its type) and makes the record initialized; in the
current module (`ArduinoCloudObject`) this also sets the dirty flag and
refreshes the timestamp, while in the earlier module (`AIOTObject`) the
initializing assignment refreshes the timestamp but leaves the dirty flag
unchanged. -/
theorem c3_amended (v : PyVal) (upd : Bool) (ts now : ℕ) (hv : v ≠ PyVal.vNone) :
    setValueCore PyVal.vNone upd ts v now = ((v, true, now), SetOutcome.ok) ∧
    setValueCoreOld PyVal.vNone upd ts v now = ((v, upd, now), SetOutcome.ok) := by
  cases v
  case vNone => exact absurd rfl hv
  all_goals exact ⟨rfl, rfl⟩

/-- C3 witness: the amended claim evaluated on a concrete string
assignment to an uninitialized leaf. -/
theorem c3_witness :
    setValueCore PyVal.vNone false 0 (PyVal.vStr "on") 9 =
      ((PyVal.vStr "on", true, 9), SetOutcome.ok) ∧
    setValueCoreOld PyVal.vNone false 0 (PyVal.vStr "on") 9 =
      ((PyVal.vStr "on", false, 9), SetOutcome.ok) :=
  c3_amended (PyVal.vStr "on") false 0 9 (by decide)

/-- C4 counterexample: a leaf with established type float accepts a bool
(`True`): since `isinstance(True, int)` holds in Python, the int-to-float
workaround coerces it and stores `1.0` without raising — so int-to-float
is not the single cross-type exception claimed. -/
theorem c4_counterexample :
    (c4rec.setValue (PyVal.vBool true) 3).2 = SetOutcome.ok ∧
    (c4rec.setValue (PyVal.vBool true) 3).1.rv = RecVal.leaf (PyVal.vFloat 1) ∧
    ¬((c4rec.setValue (PyVal.vBool true) 3).2 = SetOutcome.typeMismatch) := by
  decide

/-- C4 (amended): for an initialized leaf and a non-None assignment, the
setter raises TypeMismatch exactly when the established value is not an
instance of the (post-coercion) type of the new value, i.e. unless the
tags are equal, the leaf is a float receiving an int or a bool (stored as
the coerced float), or the leaf is a bool receiving a plain int; a raised
TypeMismatch leaves value, dirty flag and timestamp unchanged, and in
particular a float assigned to an int leaf is rejected while an int
assigned to a float leaf is coerced and stored. -/
theorem c4_amended (cur v : PyVal) (upd : Bool) (ts now : ℕ)
    (hc : cur ≠ PyVal.vNone) (hv : v ≠ PyVal.vNone) :
    ((setValueCore cur upd ts v now).2 = SetOutcome.typeMismatch ↔
      acceptTag cur.typeOf v.typeOf = false) ∧
    ((setValueCore cur upd ts v now).2 = SetOutcome.typeMismatch →
      (setValueCore cur upd ts v now).1 = (cur, upd, ts)) ∧
    (acceptTag cur.typeOf v.typeOf = true →
      (setValueCore cur upd ts v now).1 =
        ((if cur.typeOf == PyType.tFloat then coerceToFloat v else v), true, now)) := by
  cases cur <;> cases v <;>
    simp_all [setValueCore, acceptTag, pyIsinstance, PyVal.typeOf, coerceToFloat]

/-- C4 witness: the amended claim evaluated on a float value assigned to
an int-typed leaf (rejected, state unchanged). -/
theorem c4_witness :
    ((setValueCore (PyVal.vInt 3) false 0 (PyVal.vFloat 2) 9).2 = SetOutcome.typeMismatch ↔
      acceptTag (PyVal.vInt 3).typeOf (PyVal.vFloat 2).typeOf = false) ∧
    ((setValueCore (PyVal.vInt 3) false 0 (PyVal.vFloat 2) 9).2 = SetOutcome.typeMismatch →
      (setValueCore (PyVal.vInt 3) false 0 (PyVal.vFloat 2) 9).1 = (PyVal.vInt 3, false, 0)) ∧
    (acceptTag (PyVal.vInt 3).typeOf (PyVal.vFloat 2).typeOf = true →
      (setValueCore (PyVal.vInt 3) false 0 (PyVal.vFloat 2) 9).1 =
        ((if (PyVal.vInt 3).typeOf == PyType.tFloat then coerceToFloat (PyVal.vFloat 2)
          else PyVal.vFloat 2), true, 9)) :=
  c4_amended (PyVal.vInt 3) (PyVal.vFloat 2) false 0 9 (by decide) (by decide)

/-- C9: assigning None to a leaf always stores None (making the record
uninitialized again) while leaving the dirty flag and timestamp alone, and
a subsequent non-None assignment of any type is then accepted as a fresh
initialization — the previously established type is not enforced across
the intervening None. -/
theorem c9_theorem (r : ArduinoCloudObject) (cur : PyVal) (h : r.rv = RecVal.leaf cur)
    (now now2 : ℕ) (v : PyVal) (hv : v ≠ PyVal.vNone) :
    (r.setValue PyVal.vNone now).2 = SetOutcome.ok ∧
    (r.setValue PyVal.vNone now).1 = { r with rv := RecVal.leaf PyVal.vNone } ∧
    ((r.setValue PyVal.vNone now).1).initialized = false ∧
    (((r.setValue PyVal.vNone now).1).setValue v now2).2 = SetOutcome.ok ∧
    (((r.setValue PyVal.vNone now).1).setValue v now2).1.rv = RecVal.leaf v := by
  have h1 : r.setValue PyVal.vNone now = ({ r with rv := RecVal.leaf PyVal.vNone }, SetOutcome.ok) := by
    simp [ArduinoCloudObject.setValue, h, setValueCore]
  refine ⟨by rw [h1], by rw [h1], by rw [h1]; rfl, ?_, ?_⟩ <;>
    rw [h1] <;> cases v <;>
      simp_all [ArduinoCloudObject.setValue, setValueCore]

/-- C9 witness: a bool leaf set to None and then re-initialized with a
string. -/
theorem c9_witness :
    ((mkObject "led" (RecVal.leaf (PyVal.vBool true)) false false false 1 none 0 0).setValue
        PyVal.vNone 4).2 = SetOutcome.ok ∧
    ((mkObject "led" (RecVal.leaf (PyVal.vBool true)) false false false 1 none 0 0).setValue
        PyVal.vNone 4).1 =
      { mkObject "led" (RecVal.leaf (PyVal.vBool true)) false false false 1 none 0 0 with
        rv := RecVal.leaf PyVal.vNone } ∧
    (((mkObject "led" (RecVal.leaf (PyVal.vBool true)) false false false 1 none 0 0).setValue
        PyVal.vNone 4).1).initialized = false ∧
    ((((mkObject "led" (RecVal.leaf (PyVal.vBool true)) false false false 1 none 0 0).setValue
        PyVal.vNone 4).1).setValue (PyVal.vStr "x") 5).2 = SetOutcome.ok ∧
    ((((mkObject "led" (RecVal.leaf (PyVal.vBool true)) false false false 1 none 0 0).setValue
        PyVal.vNone 4).1).setValue (PyVal.vStr "x") 5).1.rv = RecVal.leaf (PyVal.vStr "x") :=
  c9_theorem (mkObject "led" (RecVal.leaf (PyVal.vBool true)) false false false 1 none 0 0)
    (PyVal.vBool true) rfl 4 5 (PyVal.vStr "x") (by decide)

/-- C10: because the setter tests `isinstance(self.value, type(value))`,
a bool-typed leaf accepts a plain int — storing it, so the effective type
becomes int — while an int-typed leaf rejects a bool with TypeMismatch,
leaving its state unchanged. -/
theorem c10_theorem (b : Bool) (n : ℤ) (upd : Bool) (ts now : ℕ) :
    setValueCore (PyVal.vBool b) upd ts (PyVal.vInt n) now =
      ((PyVal.vInt n, true, now), SetOutcome.ok) ∧
    (PyVal.vInt n).typeOf = PyType.tInt ∧
    setValueCore (PyVal.vInt n) upd ts (PyVal.vBool b) now =
      ((PyVal.vInt n, upd, ts), SetOutcome.typeMismatch) := by
  exact ⟨rfl, rfl, rfl⟩

/-- Clearing every child's flag makes the composite dirty check false. -/
lemma children_cleared_any (cs : List Child) :
    (cs.map (fun c => { c with updated := false })).any (fun c => c.updated) = false := by
  induction cs with
  | nil => rfl
  | cons c cs ih => simp [ih]

/-- `senml_callback` leaves the record with a false `updated` property and
a scheduled `on_write`. -/
lemma senmlCallback_flags (r : ArduinoCloudObject) :
    r.senmlCallback.updatedGet = false ∧ r.senmlCallback.onWriteScheduled = true := by
  constructor
  · cases h : r.rv <;>
      simp [ArduinoCloudObject.senmlCallback, ArduinoCloudObject.updatedSetAll,
        ArduinoCloudObject.updatedGet, h, children_cleared_any]
  · rfl

/-- A record whose `updated` property is false contributes nothing to a
push-batch fold step. -/
lemma pushPack_aux (r' : ArduinoCloudObject) (h : r'.updatedGet = false)
    (pack : List PackEntry) (l : List ArduinoCloudObject) :
    List.foldl (fun pack r => if r.updatedGet then (r.addToPack pack true).2 else pack) pack
        (r' :: l) =
      List.foldl (fun pack r => if r.updatedGet then (r.addToPack pack true).2 else pack) pack l := by
  simp [h]

/-- A record whose `updated` property is false can be dropped from the
registry without changing the push batch. -/
lemma pushPack_skip (r' : ArduinoCloudObject) (h : r'.updatedGet = false)
    (l1 l2 : List ArduinoCloudObject) :
    pushPack (l1 ++ r' :: l2) = pushPack (l1 ++ l2) := by
  unfold pushPack
  rw [List.foldl_append, List.foldl_append, pushPack_aux r' h]

/-- C1: a cloud-originated update delivered by the codec callback — either
directly on a leaf record or through a composite's child (whose codec
callback is the parent's) — leaves the record with `dirty` cleared and
`write_pending` set in that same step, and such a record contributes
nothing to the outbound push batch built by `poll_mqtt`, wherever it sits
in the registry, unless a later local assignment dirties it again. -/
theorem c1_theorem (r r' : ArduinoCloudObject) (v : PyVal) (now : ℕ)
    (h : r.markFromNetwork v now = (r', SetOutcome.ok) ∨
         ∃ cn, r.hasChildNamed cn = true ∧ r.childFromNetwork cn v now = (r', SetOutcome.ok)) :
    r'.updatedGet = false ∧ r'.onWriteScheduled = true ∧
    ∀ l1 l2 : List ArduinoCloudObject, pushPack (l1 ++ r' :: l2) = pushPack (l1 ++ l2) := by
  have hr : ∃ r0 : ArduinoCloudObject, r' = r0.senmlCallback := by
    rcases h with h | ⟨cn, hc, h⟩
    · rcases hs : r.setValue v now with ⟨r0, out⟩
      unfold ArduinoCloudObject.markFromNetwork at h
      rw [hs] at h
      cases out
      · injection h with h1 _
        exact ⟨r0, h1.symm⟩
      · injection h with _ h2
        simp at h2
    · cases hrv : r.rv with
      | leaf v0 =>
        simp [ArduinoCloudObject.hasChildNamed, hrv] at hc
      | comp cs =>
        simp only [ArduinoCloudObject.childFromNetwork, hrv, hc, if_true] at h
        split at h
        · injection h with _ h2
          simp at h2
        · injection h with h1 _
          exact ⟨_, h1.symm⟩
  rcases hr with ⟨r0, rfl⟩
  have hf := senmlCallback_flags r0
  exact ⟨hf.1, hf.2, fun l1 l2 => pushPack_skip _ hf.1 l1 l2⟩

/-- Sample writable bool leaf, dirty before the cloud update arrives. -/
def c1rec : ArduinoCloudObject :=
  { mkObject "sw1" (RecVal.leaf (PyVal.vBool false)) false true false 1 none 0 0 with
    updated := true }

/-- Sample second (dirty) record sharing the registry. -/
def c1other : ArduinoCloudObject :=
  { mkObject "led" (RecVal.leaf (PyVal.vBool true)) false false false 1 none 0 0 with
    updated := true }

/-- C1 witness: the theorem applied to a concrete cloud write of `true`
into the `sw1` record, sitting in a registry next to a dirty `led`. -/
theorem c1_witness :
    ((c1rec.markFromNetwork (PyVal.vBool true) 5).1).updatedGet = false ∧
    ((c1rec.markFromNetwork (PyVal.vBool true) 5).1).onWriteScheduled = true ∧
    pushPack ([c1other] ++ (c1rec.markFromNetwork (PyVal.vBool true) 5).1 :: []) =
      pushPack ([c1other] ++ []) := by
  have h := c1_theorem c1rec (c1rec.markFromNetwork (PyVal.vBool true) 5).1
    (PyVal.vBool true) 5 (Or.inl (by decide))
  exact ⟨h.1, h.2.1, h.2.2 [c1other] []⟩

/-- Sample composite with one initialized and one uninitialized child. -/
def c6kids : List Child :=
  [{ name := "gps:lat", value := PyVal.vFloat 1, updated := true, timestamp := 0 },
   { name := "gps:lon", value := PyVal.vNone, updated := false, timestamp := 0 }]

/-- Sample composite record over `c6kids`. -/
def c6obj : ArduinoCloudObject :=
  mkObject "gps" (RecVal.comp c6kids) false false false 1 none 0 0

/-- C6: a composite contributes its children to a push-semantics pack only
when fully initialized — one uninitialized child excludes the whole
composite — while without push semantics (shadow/update direction) the
children are always added; in every case the record's `updated` flag and
those of all its children are cleared afterwards. -/
theorem c6_theorem (r : ArduinoCloudObject) (cs : List Child) (h : r.rv = RecVal.comp cs)
    (pack : List PackEntry) :
    ((r.addToPack pack true).2 =
      if r.initialized then pack ++ cs.map Child.toEntry else pack) ∧
    ((∃ c ∈ cs, c.initialized = false) → (r.addToPack pack true).2 = pack) ∧
    ((r.addToPack pack false).2 = pack ++ cs.map Child.toEntry) ∧
    (∀ push, (r.addToPack pack push).1.updated = false) ∧
    (∀ push, (r.addToPack pack push).1.rv =
      RecVal.comp (cs.map (fun c => { c with updated := false }))) ∧
    (∀ push, (r.addToPack pack push).1.updatedGet = false) := by
  refine ⟨?_, ?_, ?_, ?_, ?_, ?_⟩
  · simp [ArduinoCloudObject.addToPack, h]
  · rintro ⟨c, hcmem, hcinit⟩
    have hini : r.initialized = false := by
      simp only [ArduinoCloudObject.initialized, h]
      cases hall : cs.all Child.initialized
      · rfl
      · rw [List.all_eq_true] at hall
        exact absurd (hall c hcmem) (by simp [hcinit])
    simp [ArduinoCloudObject.addToPack, h, hini]
  · simp [ArduinoCloudObject.addToPack, h]
  · intro push
    simp [ArduinoCloudObject.addToPack, ArduinoCloudObject.updatedSetAll]
  · intro push
    simp [ArduinoCloudObject.addToPack, ArduinoCloudObject.updatedSetAll, h]
  · intro push
    simp [ArduinoCloudObject.addToPack, ArduinoCloudObject.updatedSetAll,
      ArduinoCloudObject.updatedGet, h, children_cleared_any]

/-- C6 witness: the theorem applied to the concrete half-initialized
composite — excluded from the push pack, included in the shadow pack,
flags cleared. -/
theorem c6_witness :
    ((c6obj.addToPack [] true).2 =
      if c6obj.initialized then [] ++ c6kids.map Child.toEntry else []) ∧
    ((c6obj.addToPack [] true).2 = []) ∧
    ((c6obj.addToPack [] false).2 = [] ++ c6kids.map Child.toEntry) ∧
    ((c6obj.addToPack [] true).1.updatedGet = false) :=
  ⟨(c6_theorem c6obj c6kids rfl []).1,
   (c6_theorem c6obj c6kids rfl []).2.1
     ⟨{ name := "gps:lon", value := PyVal.vNone, updated := false, timestamp := 0 },
      by decide, by decide⟩,
   (c6_theorem c6obj c6kids rfl []).2.2.1,
   (c6_theorem c6obj c6kids rfl []).2.2.2.2.2 true⟩

/-- A record not staged for decode is untouched by one codec callback. -/
lemma applyTagged_unstaged (now : ℕ) (n : String) (v : PyVal) (r : ArduinoCloudObject) :
    applyTagged now n v (r, false) = ((r, false), false) := by
  simp [applyTagged]

/-- A record not staged for decode is untouched by one message entry. -/
lemma applyEntryTagged_unstaged (now : ℕ) (n : String) (v : PyVal)
    (tagged : List (ArduinoCloudObject × Bool)) (i : ℕ) (r : ArduinoCloudObject)
    (h : tagged[i]? = some (r, false)) :
    (applyEntryTagged now n v tagged).1[i]? = some (r, false) := by
  simp [applyEntryTagged, List.getElem?_map, h, applyTagged_unstaged]

/-- A record not staged for decode is untouched by the whole decode
loop. -/
lemma decodeEntries_unstaged (now : ℕ) (msg : List (String × PyVal)) :
    ∀ (tagged : List (ArduinoCloudObject × Bool)) (i : ℕ) (r : ArduinoCloudObject),
      tagged[i]? = some (r, false) →
      (decodeEntries now msg tagged).1[i]? = some (r, false) := by
  induction msg with
  | nil =>
    intro tagged i r h
    simpa [decodeEntries] using h
  | cons e es ih =>
    intro tagged i r h
    rw [decodeEntries]
    split
    · exact applyEntryTagged_unstaged now e.1 e.2 tagged i r h
    · exact ih _ i r (applyEntryTagged_unstaged now e.1 e.2 tagged i r h)

/-- A record that fails the staging condition passes through staging
unchanged. -/
lemma stageRecord_unstaged (topic : String) (r : ArduinoCloudObject)
    (h : stagingCond r topic = false) : stageRecord topic r = (r, false) := by
  simp [stageRecord, h]

/-- A record that fails the staging condition is untouched by the whole
`mqtt_callback`. -/
lemma mqttCallback_unstaged (records : List ArduinoCloudObject) (topic : String)
    (msg : List (String × PyVal)) (now i : ℕ) (r : ArduinoCloudObject)
    (hir : records[i]? = some r) (h : stagingCond r topic = false) :
    (mqttCallback records topic msg now).1[i]? = some r := by
  have h1 : (records.map (stageRecord topic))[i]? = some (r, false) := by
    simp [List.getElem?_map, hir, stageRecord_unstaged topic r h]
  have h2 := decodeEntries_unstaged now msg _ i r h1
  simp [mqttCallback, List.getElem?_map, h2]

/-- C2: a registered record is staged for decode by `mqtt_callback` if and
only if it is not yet initialized, or it has an `on_write` callback and
the message topic is not a shadow topic; consequently an initialized
record with no `on_write` — and an initialized writable record when the
message arrived on a shadow topic — is left exactly as it was by any
inbound message. -/
theorem c2_theorem (records : List ArduinoCloudObject) (topic : String)
    (msg : List (String × PyVal)) (now i : ℕ) (r : ArduinoCloudObject)
    (hir : records[i]? = some r)
    (hsafe : (r.initialized = true ∧ r.hasOnWrite = false) ∨
             (r.initialized = true ∧ topicIsShadow topic = true)) :
    (∀ (r2 : ArduinoCloudObject) (topic2 : String),
      stagingCond r2 topic2 = true ↔
        (r2.initialized = false ∨ (r2.hasOnWrite = true ∧ topicIsShadow topic2 = false))) ∧
    (mqttCallback records topic msg now).1[i]? = some r := by
  constructor
  · intro r2 topic2
    simp [stagingCond]
  · apply mqttCallback_unstaged records topic msg now i r hir
    rcases hsafe with ⟨h1, h2⟩ | ⟨h1, h2⟩ <;> simp [stagingCond, h1, h2]

/-- Sample initialized read-only leaf (no `on_write`). -/
def c2r : ArduinoCloudObject :=
  mkObject "temp" (RecVal.leaf (PyVal.vFloat 1)) false false false 1 none 0 0

/-- C2 witness: the theorem applied to a concrete registry — the
initialized read-only `temp` record is untouched even by a live-topic
message naming it, and the staging condition is evaluated on a shadow
topic. -/
theorem c2_witness :
    (stagingCond c2r "/a/t/x/shadow/i" = true ↔
      (c2r.initialized = false ∨
        (c2r.hasOnWrite = true ∧ topicIsShadow "/a/t/x/shadow/i" = false))) ∧
    (mqttCallback [c2r] "/a/t/x/e/i" [("temp", PyVal.vInt 7)] 3).1[0]? = some c2r := by
  have h := c2_theorem [c2r] "/a/t/x/e/i" [("temp", PyVal.vInt 7)] 3 0 c2r rfl
    (Or.inl ⟨rfl, rfl⟩)
  exact ⟨h.1 c2r "/a/t/x/shadow/i", h.2⟩

/-- `ts_expired` stated arithmetically: the timer is expired when the last
timestamp is zero or the elapsed milliseconds strictly exceed
`int(interval_s * 1000)`. -/
lemma tsExpired_iff (ts last : ℕ) (itv : ℚ) :
    tsExpired ts last itv = true ↔
      (last = 0 ∨ (ts : ℤ) - (last : ℤ) > pyIntTrunc (itv * 1000)) := by
  simp [tsExpired]

/-- Evaluation of the millisecond threshold for a 1.0 s interval. -/
lemma pyIntTrunc_one_k : pyIntTrunc (1000 : ℚ) = 1000 := by
  norm_num [pyIntTrunc]

/-- Sample runnable record for the polled scheduler. -/
def c7rec : ArduinoCloudObject :=
  mkObject "user_task" (RecVal.leaf PyVal.vNone) false false true 1 none 0 1000

/-- Sample client state holding only `c7rec`. -/
def c7state : ClientState :=
  { deviceId := "dev", records := [c7rec], thingId := none, connected := true,
    keepalive := 10, lastPing := 0, actions := [] }

/-- C7 counterexample: at `now - last_poll` exactly equal to the interval
in milliseconds (2000 - 1000 = 1000 = int(1.0 * 1000)) the claim's `>=`
condition holds, yet the pass runs nothing and leaves `last_poll`
untouched — `ts_expired` requires strictly greater. -/
theorem c7_counterexample :
    (pollRecords c7state 2000).records = [c7rec] ∧
    (pollRecords c7state 2000).actions = [] ∧
    c7rec.runnable = true ∧
    (2000 : ℤ) - (c7rec.lastPoll : ℤ) ≥ pyIntTrunc (c7rec.interval * 1000) := by
  have hts : tsExpired 2000 1000 (1 : ℚ) = false := by
    simp [tsExpired, pyIntTrunc_one_k]
  refine ⟨?_, ?_, rfl, ?_⟩
  · simp [pollRecords, pollRecordStep, c7state, c7rec, mkObject, hts,
      ArduinoCloudObject.runnable]
  · simp [pollRecords, pollRecordStep, c7state, c7rec, mkObject, hts,
      ArduinoCloudObject.runnable]
  · norm_num [c7rec, mkObject, pyIntTrunc_one_k]

/-- C7 (amended): one `poll_records` pass at timestamp `ts` runs a
runnable record exactly when `last_poll` is zero or
`ts - last_poll > int(interval * 1000)` (strictly), in which case the
record's `last_poll` becomes the pass timestamp and its run is recorded;
otherwise the record is untouched. -/
theorem c7_amended (s : ClientState) (ts i : ℕ) (r : ArduinoCloudObject)
    (hir : s.records[i]? = some r) :
    ((r.runnable = true ∧
        (r.lastPoll = 0 ∨ (ts : ℤ) - (r.lastPoll : ℤ) > pyIntTrunc (r.interval * 1000))) →
      (pollRecords s ts).records[i]? = some { r.runSyncModel with lastPoll := ts } ∧
      CloudAction.ranRecord r.name ∈ (pollRecords s ts).actions) ∧
    (¬(r.runnable = true ∧
        (r.lastPoll = 0 ∨ (ts : ℤ) - (r.lastPoll : ℤ) > pyIntTrunc (r.interval * 1000))) →
      (pollRecords s ts).records[i]? = some r) := by
  constructor
  · rintro ⟨hrun, hexp⟩
    have hts : tsExpired ts r.lastPoll r.interval = true := (tsExpired_iff ts r.lastPoll r.interval).mpr hexp
    have hstep : pollRecordStep ts r = ({ r.runSyncModel with lastPoll := ts }, true) := by
      simp [pollRecordStep, hrun, hts]
    constructor
    · simp [pollRecords, List.getElem?_map, hir, hstep]
    · have hmem : r ∈ s.records := List.getElem?_mem hir
      simp only [pollRecords, List.mem_append]
      exact Or.inr (List.mem_filterMap.mpr ⟨r, hmem, by simp [hstep]⟩)
  · intro hnot
    have hcond : (r.runnable && tsExpired ts r.lastPoll r.interval) = false := by
      cases hrun : r.runnable
      · rfl
      · cases hts : tsExpired ts r.lastPoll r.interval
        · rfl
        · exact absurd ⟨hrun, (tsExpired_iff ts r.lastPoll r.interval).mp hts⟩ hnot
    have hstep : pollRecordStep ts r = (r, false) := by
      simp only [pollRecordStep, hcond, Bool.false_eq_true, if_false]
    simp [pollRecords, List.getElem?_map, hir, hstep]

/-- C7 witness: the amended claim applied one millisecond past the
threshold — the record runs and its `last_poll` is updated. -/
theorem c7_witness :
    (pollRecords c7state 2001).records[0]? = some { c7rec.runSyncModel with lastPoll := 2001 } ∧
    CloudAction.ranRecord c7rec.name ∈ (pollRecords c7state 2001).actions :=
  (c7_amended c7state 2001 0 c7rec rfl).1
    ⟨rfl, Or.inr (by norm_num [c7rec, mkObject, pyIntTrunc_one_k])⟩

/-- The discovery block never touches the reconnect interval, backoff or
connect timestamp. -/
lemma discStep_fields (l : SyncLoopState) (env : StepEnv) :
    (discStep l env).1.interval = l.interval ∧
    (discStep l env).1.backoff = l.backoff ∧
    (discStep l env).1.lastConnMs = l.lastConnMs := by
  unfold discStep
  split
  · split <;> exact ⟨rfl, rfl, rfl⟩
  · exact ⟨rfl, rfl, rfl⟩

/-- The reconnect interval after a full loop iteration is the one produced
by the connect block. -/
lemma startStep_interval (l : SyncLoopState) (env : StepEnv) :
    (startStep l env).1.interval = (connStep l env).interval := by
  unfold startStep
  rcases h : discStep (connStep l env) env with ⟨l2, o⟩
  have hi := (discStep_fields (connStep l env) env).1
  rw [h] at hi
  cases o <;> simp only []
  · split <;> exact hi
  · split <;> exact hi
  · exact hi

/-- The connect block under an expired timer on a disconnected client. -/
lemma connStep_expired (l : SyncLoopState) (env : StepEnv)
    (hc : l.cs.connected = false)
    (hexp : tsExpired env.ts l.lastConnMs l.interval = true) :
    connStep l env =
      { l with
        cs := pollConnect l.cs env.connectOk
        interval := if l.lastConnMs != 0 then min (l.interval * l.backoff) 5 else l.interval
        lastConnMs := env.ts } := by
  simp [connStep, hc, hexp]

/-- C8 (amended): in the polled reconnection loop, a failed connection
attempt leaves the retry interval unchanged when it was the first attempt
(`last_conn_ms = 0`) and otherwise sets it to
`min(interval * backoff, 5.0)` — strictly larger while below the 5.0 cap
(for a backoff above 1) and fixed at the cap once reached; the interval
never decreases while attempts continue, so it returns to its initial
value only when `start()` is re-entered after a connection was
established and lost.  In event-loop mode the task runner grows the
interval by the same rule after every pass, the first included. -/
theorem c8_amended (l : SyncLoopState) (env : StepEnv)
    (hc : l.cs.connected = false)
    (hexp : tsExpired env.ts l.lastConnMs l.interval = true)
    (_hfail : env.connectOk = false) :
    (l.lastConnMs ≠ 0 →
      (startStep l env).1.interval = min (l.interval * l.backoff) 5) ∧
    (l.lastConnMs = 0 → (startStep l env).1.interval = l.interval) ∧
    (l.lastConnMs ≠ 0 → 1 < l.backoff → 0 < l.interval → l.interval < 5 →
      l.interval < (startStep l env).1.interval) ∧
    (l.lastConnMs ≠ 0 → l.interval = 5 → 1 ≤ l.backoff →
      (startStep l env).1.interval = 5) ∧
    (1 ≤ l.backoff → 0 ≤ l.interval → l.interval ≤ 5 →
      l.interval ≤ (startStep l env).1.interval) ∧
    (∀ i b : ℚ, objRunIntervalStep i (some b) = min (i * b) 5) ∧
    (∀ i b : ℚ, 1 < b → 0 < i → i < 5 → i < objRunIntervalStep i (some b)) ∧
    (∀ b : ℚ, 1 ≤ b → objRunIntervalStep 5 (some b) = 5) := by
  have hbase : (startStep l env).1.interval =
      if l.lastConnMs != 0 then min (l.interval * l.backoff) 5 else l.interval := by
    rw [startStep_interval, connStep_expired l env hc hexp]
  refine ⟨?_, ?_, ?_, ?_, ?_, ?_, ?_, ?_⟩
  · intro h0
    rw [hbase]
    simp [h0]
  · intro h0
    rw [hbase]
    simp [h0]
  · intro h0 hb hi h5
    rw [hbase]
    simp only [h0, ne_eq, not_false_eq_true, bne_iff_ne, if_true]
    exact lt_min ((lt_mul_iff_one_lt_right hi).mpr hb) h5
  · intro h0 h5 hb
    rw [hbase]
    simp only [h0, ne_eq, not_false_eq_true, bne_iff_ne, if_true, h5]
    exact min_eq_right (le_mul_of_one_le_right (by norm_num) hb)
  · intro hb hi h5
    rw [hbase]
    split
    · exact le_min (le_mul_of_one_le_right hi hb) h5
    · exact le_refl _
  · intro i b
    rfl
  · intro i b hb hi h5
    show i < min (i * b) 5
    exact lt_min ((lt_mul_iff_one_lt_right hi).mpr hb) h5
  · intro b hb
    show min (5 * b) 5 = 5
    exact min_eq_right (le_mul_of_one_le_right (by norm_num) hb)

/-- Sample disconnected client with an empty registry. -/
def c8client : ClientState :=
  { deviceId := "dev", records := [], thingId := none, connected := false,
    keepalive := 10, lastPing := 0, actions := [] }

/-- Loop state before the very first connection attempt. -/
def c8loop : SyncLoopState :=
  { cs := c8client, interval := 1, backoff := 6/5, lastConnMs := 0, lastDiscMs := 0 }

/-- Loop state of a later (non-first) attempt. -/
def c8loop2 : SyncLoopState :=
  { cs := c8client, interval := 1, backoff := 6/5, lastConnMs := 500, lastDiscMs := 0 }

/-- Environment: a failing connect at t = 1000 ms. -/
def c8env : StepEnv := { ts := 1000, connectOk := false, inbound := none }

/-- Environment: a failing connect at t = 2000 ms. -/
def c8env2 : StepEnv := { ts := 2000, connectOk := false, inbound := none }

/-- C8 counterexample: the very first connection attempt fails (the
attempt is recorded in the trace) yet the retry interval stays at its
initial 1.0 — the loop grows it only when `last_conn_ms != 0`, so the
interval does not strictly increase after every failed attempt. -/
theorem c8_counterexample :
    (startStep c8loop c8env).1.cs.actions = [CloudAction.connectAttempt false] ∧
    (startStep c8loop c8env).1.cs.connected = false ∧
    (startStep c8loop c8env).1.interval = 1 ∧
    ¬((1 : ℚ) < (startStep c8loop c8env).1.interval) := by
  refine ⟨?_, ?_, ?_, ?_⟩ <;>
    simp [startStep, connStep, discStep, pollConnect, pollRecords, c8loop, c8client, c8env,
      tsExpired]

/-- C8 witness: the amended claim applied to a later failing attempt —
the interval is set to `min(interval * backoff, 5)`, strictly above its
previous value, and the async rule grows by the same expression. -/
theorem c8_witness :
    (startStep c8loop2 c8env2).1.interval = min (c8loop2.interval * c8loop2.backoff) 5 ∧
    c8loop2.interval < (startStep c8loop2 c8env2).1.interval ∧
    objRunIntervalStep 1 (some (6/5)) = min ((1 : ℚ) * (6/5)) 5 ∧
    (1 : ℚ) < objRunIntervalStep 1 (some (6/5)) := by
  have hexp : tsExpired c8env2.ts c8loop2.lastConnMs c8loop2.interval = true := by
    simp [tsExpired, c8env2, c8loop2, pyIntTrunc_one_k]
  have h := c8_amended c8loop2 c8env2 rfl hexp rfl
  exact ⟨h.1 (by norm_num [c8loop2]),
    h.2.2.1 (by norm_num [c8loop2]) (by norm_num [c8loop2]) (by norm_num [c8loop2])
      (by norm_num [c8loop2]),
    h.2.2.2.2.2.1 1 (6/5),
    h.2.2.2.2.2.2.1 1 (6/5) (by norm_num) (by norm_num) (by norm_num)⟩

/-- `poll_discovery` on a registry whose `thing_id` record holds the empty
string (and no newly delivered message): the empty id is adopted and its
record popped *before* the fatal exception is raised, and no action is
emitted. -/
lemma pollDiscovery_emptyIdentity (cs : ClientState) (now : ℕ)
    (h : recValue cs.records "thing_id" = some (PyVal.vStr "")) :
    pollDiscovery cs none now =
      ({ cs with
          thingId := some (PyVal.vStr "")
          records := popRecord cs.records "thing_id" },
       some Exn.emptyIdentity) := by
  have hemp : "".isEmpty = true := rfl
  simp only [pollDiscovery, h, pyFalsy, hemp, if_true]

/-- C5 (amended): when discovery resolves an empty thing id,
`poll_discovery` raises the empty-identity exception — after having
already stored the empty id as the client's thing id.  In the polled mode
the exception propagates out of the `start()` loop and out of `update()`,
and no steady-state push or ping is ever emitted on the way.  In
event-loop mode, however, the supervision loop catches every task
exception except `KeyboardInterrupt`, so the exception does not propagate
to the top level — the discovery task is merely evicted without restart —
and because the empty id was stored before the raise, the remaining
`poll_mqtt` task's `thing_id is not None` gate is satisfied. -/
theorem c5_amended (l : SyncLoopState) (env : StepEnv) (rest : List StepEnv) (fuel : ℕ)
    (post : StepEnv)
    (hc : l.cs.connected = false)
    (hthing : l.cs.thingId = none)
    (hrec : recValue l.cs.records "thing_id" = some (PyVal.vStr ""))
    (hexp : tsExpired env.ts l.lastConnMs l.interval = true)
    (hdisc : tsExpired env.ts l.lastDiscMs (1/4 : ℚ) = true)
    (hok : env.connectOk = true)
    (hinb : env.inbound = none) :
    (startStep l env).2 = StepOutcome.raised Exn.emptyIdentity ∧
    (startStep l env).1.cs.thingId = some (PyVal.vStr "") ∧
    (startStep l env).1.cs.actions =
      l.cs.actions ++ [CloudAction.connectAttempt true,
        CloudAction.subscribe (deviceTopicOf l.cs.deviceId)] ∧
    startLoop (fuel + 1) (env :: rest) l =
      ((startStep l env).1, StepOutcome.raised Exn.emptyIdentity) ∧
    updateSync l (env :: rest) (fuel + 1) post =
      ((startStep l env).1, some Exn.emptyIdentity) ∧
    (l.cs.actions.all (fun a => !isSteadySyncAction a) = true →
      (startStep l env).1.cs.actions.all (fun a => !isSteadySyncAction a) = true) ∧
    (∀ (tasks : List String) (doneTask : String) (e2 : TaskExn),
      runSupervisorStep tasks doneTask TaskExn.emptyIdentityE ≠ SupOutcome.propagated e2) ∧
    pollMqttGate (some (PyVal.vStr "")) = true := by
  have hcs : (connStep l env).cs =
      { l.cs with
          connected := true
          actions := l.cs.actions ++ [CloudAction.connectAttempt true,
            CloudAction.subscribe (deviceTopicOf l.cs.deviceId)] } := by
    rw [connStep_expired l env hc hexp]
    simp [pollConnect, hok, hthing]
  have hld : (connStep l env).lastDiscMs = l.lastDiscMs := by
    rw [connStep_expired l env hc hexp]
  have hrec' : recValue (connStep l env).cs.records "thing_id" = some (PyVal.vStr "") := by
    rw [hcs]
    exact hrec
  have hpd := pollDiscovery_emptyIdentity (connStep l env).cs env.ts hrec'
  have hcond : ((connStep l env).cs.connected && (connStep l env).cs.thingId.isNone &&
      tsExpired env.ts (connStep l env).lastDiscMs (1/4 : ℚ)) = true := by
    simp only [hcs, hld, hthing, Option.isNone_none, Bool.true_and, Bool.and_true]
    exact hdisc
  have hdiscstep : discStep (connStep l env) env =
      ({ connStep l env with cs := (pollDiscovery (connStep l env).cs none env.ts).1 },
        StepOutcome.raised Exn.emptyIdentity) := by
    unfold discStep
    rw [hinb]
    simp only [hcond, if_true, hpd]
  have hstart : startStep l env =
      ({ connStep l env with cs := (pollDiscovery (connStep l env).cs none env.ts).1 },
        StepOutcome.raised Exn.emptyIdentity) := by
    unfold startStep
    rw [hdiscstep]
  have hacts : (startStep l env).1.cs.actions =
      l.cs.actions ++ [CloudAction.connectAttempt true,
        CloudAction.subscribe (deviceTopicOf l.cs.deviceId)] := by
    rw [hstart]
    show (pollDiscovery (connStep l env).cs none env.ts).1.actions = _
    rw [hpd]
    show (connStep l env).cs.actions = _
    rw [hcs]
  refine ⟨by rw [hstart], ?_, hacts, ?_, ?_, ?_, ?_, rfl⟩
  · rw [hstart]
    show (pollDiscovery (connStep l env).cs none env.ts).1.thingId = _
    rw [hpd]
  · show startLoop (fuel + 1) (env :: rest) l = _
    unfold startLoop
    rw [hstart]
  · unfold updateSync
    rw [hc]
    simp only [Bool.not_false, if_true]
    have : startLoop (fuel + 1) (env :: rest) l =
        ((startStep l env).1, StepOutcome.raised Exn.emptyIdentity) := by
      unfold startLoop
      rw [hstart]
    rw [this]
  · intro hall
    rw [hacts]
    simp only [List.all_append, hall, Bool.true_and]
    rfl
  · intro tasks doneTask e2
    simp [runSupervisorStep]

/-- C5 counterexample: the async supervision loop, handed the
empty-identity failure of the discovery task, swallows it — the outcome is
`continued` with the discovery task evicted and no reconnect registered,
not a propagated exception — and the `poll_mqtt` gate already passes on
the stored empty thing id.  The claim's "propagates to the top level, and
no steady-state sync ever begins" therefore fails in event-loop mode. -/
theorem c5_counterexample :
    runSupervisorStep ["discovery", "mqtt_task"] "discovery" TaskExn.emptyIdentityE =
      SupOutcome.continued ["mqtt_task"] false ∧
    runSupervisorStep ["discovery", "mqtt_task"] "discovery" TaskExn.emptyIdentityE ≠
      SupOutcome.propagated TaskExn.emptyIdentityE ∧
    pollMqttGate (some (PyVal.vStr "")) = true := by
  decide

/-- Client whose `thing_id` record was seeded with the empty string. -/
def c5client : ClientState :=
  { deviceId := "dev",
    records := [mkObject "thing_id" (RecVal.leaf (PyVal.vStr "")) false false false 1 none 0 0],
    thingId := none, connected := false, keepalive := 10, lastPing := 0, actions := [] }

/-- Loop state entering `start()` disconnected. -/
def c5loop : SyncLoopState :=
  { cs := c5client, interval := 1, backoff := 6/5, lastConnMs := 0, lastDiscMs := 0 }

/-- Environment: the connect succeeds and discovery runs in the same
pass. -/
def c5env : StepEnv := { ts := 1000, connectOk := true, inbound := none }

/-- Environment for the post-start part of `update()`. -/
def c5post : StepEnv := { ts := 2000, connectOk := false, inbound := none }

/-- C5 witness: the amended claim applied to the concrete empty-identity
scenario — the loop iteration raises, the empty id is stored, and both
`start()` and `update()` propagate the exception. -/
theorem c5_witness :
    (startStep c5loop c5env).2 = StepOutcome.raised Exn.emptyIdentity ∧
    (startStep c5loop c5env).1.cs.thingId = some (PyVal.vStr "") ∧
    startLoop 1 [c5env] c5loop =
      ((startStep c5loop c5env).1, StepOutcome.raised Exn.emptyIdentity) ∧
    updateSync c5loop [c5env] 1 c5post = ((startStep c5loop c5env).1, some Exn.emptyIdentity) := by
  have h := c5_amended c5loop c5env [] 0 c5post rfl rfl (by decide) (by decide) (by decide)
    rfl rfl
  exact ⟨h.1, h.2.1, h.2.2.2.1, h.2.2.2.2.1⟩
